import Mathlib

/-!
Shallow embedding of the moon-phase calendar generator (`main.py`).

The program renders a yearly calendar where every day cell carries a ring
glyph encoding the Moon's illuminated fraction and waxing/waning direction,
plus a fill color marking lunar new-moon / full-moon days.  We embed the
lunar-phase core — `get_illum_waxing`, `get_lunar_color`, `draw_moon_ring`,
and the per-cell loop of `generate_calendar` — and prove the specified
properties about it.

External libraries (Python `datetime`, `lunardate`, `skyfield`, PIL) are not
part of the repository; where a claim depends on their behaviour they are
modelled from the specification, as noted on each definition.
-/

namespace MoonCalendar

/-- RGB color triple, the form of the PIL color constants in `main.py`. -/
abbrev Color := ℕ × ℕ × ℕ

/-- Constant `COLOR_BLACK = (0, 0, 0)` from `main.py`. -/
def COLOR_BLACK : Color := (0, 0, 0)

/-- Constant `COLOR_GRAY_BORDER = (180, 180, 180)` from `main.py`. -/
def COLOR_GRAY_BORDER : Color := (180, 180, 180)

/-- Constant `COLOR_YELLOW = (255, 255, 0)` from `main.py`. -/
def COLOR_YELLOW : Color := (255, 255, 0)

/-- Constant `COLOR_LUNAR_NEW_MOON = (255, 205, 210)` from `main.py` (light red/pink). -/
def COLOR_LUNAR_NEW_MOON : Color := (255, 205, 210)

/-- Constant `COLOR_LUNAR_FULL_MOON = (187, 222, 251)` from `main.py` (light blue). -/
def COLOR_LUNAR_FULL_MOON : Color := (187, 222, 251)

/-- Modelled from the spec: the proleptic-Gregorian leap-year rule used by
Python's `datetime`/`calendar` modules (divisible by 4, except centuries not
divisible by 400). -/
def isLeap (y : ℤ) : Bool := y % 4 == 0 && (y % 100 != 0 || y % 400 == 0)

/-- Modelled from the spec: number of days in a Gregorian month, as in
Python's `calendar` module. Months are numbered 1..12. -/
def daysInMonth (y : ℤ) (m : ℕ) : ℕ :=
  if m = 2 then (if isLeap y then 29 else 28)
  else if m = 4 ∨ m = 6 ∨ m = 9 ∨ m = 11 then 30
  else if 1 ≤ m ∧ m ≤ 12 then 31
  else 0

/-- Modelled from the spec: number of days in year `y` strictly before month
`m`, as used by Python's `datetime.date.toordinal`. -/
def daysBeforeMonth (y : ℤ) (m : ℕ) : ℕ :=
  let base : ℕ :=
    if m = 1 then 0
    else if m = 2 then 31
    else if m = 3 then 59
    else if m = 4 then 90
    else if m = 5 then 120
    else if m = 6 then 151
    else if m = 7 then 181
    else if m = 8 then 212
    else if m = 9 then 243
    else if m = 10 then 273
    else if m = 11 then 304
    else if m = 12 then 334
    else 0
  if 3 ≤ m then (if isLeap y then base + 1 else base) else base

/-- A civil (proleptic-Gregorian) calendar date: the `(year, month, day)`
triple carried by a Python `datetime`. -/
structure Date where
  year : ℤ
  month : ℕ
  day : ℕ
deriving DecidableEq, Repr

/-- The dates Python's `datetime` accepts: year at least 1 (MINYEAR), month
1..12, day 1..`daysInMonth`. -/
def validDate (dt : Date) : Prop :=
  1 ≤ dt.year ∧ 1 ≤ dt.month ∧ dt.month ≤ 12 ∧
    1 ≤ dt.day ∧ dt.day ≤ daysInMonth dt.year dt.month

instance (dt : Date) : Decidable (validDate dt) := by
  unfold validDate; infer_instance

/-- The civil successor of a date: the next day, rolling over month and year
boundaries by the Gregorian rules. -/
def dateSucc (dt : Date) : Date :=
  if dt.day < daysInMonth dt.year dt.month then ⟨dt.year, dt.month, dt.day + 1⟩
  else if dt.month < 12 then ⟨dt.year, dt.month + 1, 1⟩
  else ⟨dt.year + 1, 1, 1⟩

/-- Modelled from the spec: the proleptic-Gregorian day ordinal of a date
(day count with 0001-01-01 as day 1), as computed by Python's
`datetime.date.toordinal`. -/
def toOrdinal (dt : Date) : ℤ :=
  365 * (dt.year - 1) + (dt.year - 1) / 4 - (dt.year - 1) / 100
    + (dt.year - 1) / 400 + daysBeforeMonth dt.year dt.month + dt.day

/-- Spelling out `isLeap` as an arithmetic proposition. -/
theorem isLeap_iff (y : ℤ) :
    isLeap y = true ↔ (y % 4 = 0 ∧ (y % 100 ≠ 0 ∨ y % 400 = 0)) := by
  simp [isLeap, Bool.and_eq_true, Bool.or_eq_true]

/-- Stepping inside a month: only the day component changes. -/
theorem toOrdinal_day_step (y : ℤ) (m d : ℕ) :
    toOrdinal ⟨y, m, d + 1⟩ = toOrdinal ⟨y, m, d⟩ + 1 := by
  simp only [toOrdinal]
  push_cast
  ring

/-- The cumulative month table is consistent with the per-month lengths. -/
theorem daysBeforeMonth_succ (y : ℤ) (m : ℕ) (h1 : 1 ≤ m) (h2 : m ≤ 11) :
    daysBeforeMonth y (m + 1) = daysBeforeMonth y m + daysInMonth y m := by
  interval_cases m <;>
    cases hl : isLeap y <;>
    simp [daysBeforeMonth, daysInMonth, hl]

/-- Rolling over a month boundary (months 1..11). -/
theorem toOrdinal_month_step (y : ℤ) (m : ℕ) (h1 : 1 ≤ m) (h2 : m ≤ 11) :
    toOrdinal ⟨y, m + 1, 1⟩ = toOrdinal ⟨y, m, daysInMonth y m⟩ + 1 := by
  simp only [toOrdinal, daysBeforeMonth_succ y m h1 h2]
  push_cast
  ring

/-- Rolling over a year boundary: December 31 to January 1.  The leap-year
rule matches the change in the accumulated leap-day count. -/
theorem toOrdinal_year_step (y : ℤ) :
    toOrdinal ⟨y + 1, 1, 1⟩ = toOrdinal ⟨y, 12, 31⟩ + 1 := by
  have hL := isLeap_iff y
  cases hl : isLeap y <;>
    simp only [hl, Bool.false_eq_true, false_iff, true_iff, not_and, not_or,
      not_not] at hL <;>
    simp [toOrdinal, daysBeforeMonth, hl] <;>
    omega

/-- Advancing a valid date by one civil day advances its Gregorian ordinal by
exactly one.  This is the crux of the day-boundary sampling invariant. -/
theorem toOrdinal_dateSucc (dt : Date) (h : validDate dt) :
    toOrdinal (dateSucc dt) = toOrdinal dt + 1 := by
  obtain ⟨y, m, d⟩ := dt
  obtain ⟨hy, hm1, hm2, hd1, hd2⟩ := h
  simp only at hy hm1 hm2 hd1 hd2
  simp only [dateSucc]
  split_ifs with hlt hm
  · exact toOrdinal_day_step y m d
  · have hd : d = daysInMonth y m := by omega
    subst hd
    exact toOrdinal_month_step y m hm1 (by omega)
  · have hm12 : m = 12 := by omega
    subst hm12
    have hd : d = 31 := by
      have : daysInMonth y 12 = 31 := by simp [daysInMonth]
      omega
    subst hd
    exact toOrdinal_year_step y

/-- An aware Python `datetime` as used by `main.py`: a civil date, a
time-of-day in seconds, and the fixed UTC offset in hours carried by its
`tzinfo` (`timezone(timedelta(hours=tz_offset))`). -/
structure PyDateTime where
  date : Date
  secondsOfDay : ℤ
  offsetHours : ℤ
deriving DecidableEq, Repr

/-- The local-midnight datetime `datetime(year, month, day, tzinfo=tz)`
constructed for every cell in `generate_calendar` (lines 205-210). -/
def localMidnight (d : Date) (off : ℤ) : PyDateTime := ⟨d, 0, off⟩

/-- Modelled from the spec: Python's `date + timedelta(days=1)` (line 58)
advances the civil date by one day, leaving time-of-day and `tzinfo`
untouched. -/
def addDays1 (dt : PyDateTime) : PyDateTime :=
  ⟨dateSucc dt.date, dt.secondsOfDay, dt.offsetHours⟩

/-- Modelled from the spec: `ts.from_datetime` resolves an aware datetime to
an absolute instant ("the engine's internal time representation").  We
measure instants in seconds on an absolute UTC scale: the civil reading
shifted back by the fixed UTC offset. -/
def toInstant (dt : PyDateTime) : ℤ :=
  86400 * toOrdinal dt.date + dt.secondsOfDay - 3600 * dt.offsetHours

/-- Embedding of `get_illum_waxing` (lines 55-63).  The ephemeris query
`earth.at(t).observe(moon).apparent().fraction_illuminated(sun)` is a pure
function of the instant; it enters as the parameter `ill`. -/
def get_illum_waxing (ill : ℤ → ℚ) (date : PyDateTime) : ℚ × Bool :=
  let t := toInstant date
  let tn := toInstant (addDays1 date)
  let illum := ill t
  let illum_next := ill tn
  (illum, decide (illum_next > illum))

/-- Embedding of `get_lunar_color` (lines 66-74).  The lunar-calendar
conversion `LunarDate.fromSolarDate(date.year, date.month, date.day).day`
is external (`lunardate` package); it enters as the parameter
`lunarDayOfMonth`, a function of the civil (year, month, day) triple. -/
def get_lunar_color (lunarDayOfMonth : ℤ → ℕ → ℕ → ℕ) (date : PyDateTime) :
    Option Color :=
  let lday := lunarDayOfMonth date.date.year date.date.month date.date.day
  if lday = 1 then some COLOR_LUNAR_NEW_MOON
  else if lday = 15 then some COLOR_LUNAR_FULL_MOON
  else none

/-- Python's `int()` on a nonnegative-or-negative rational: truncation toward
zero. -/
def pyTrunc (q : ℚ) : ℤ := if 0 ≤ q then ⌊q⌋ else -⌊-q⌋

/-- The sweep magnitude `sweep = int(360 * illum)` computed by
`draw_moon_ring` (line 83). -/
def sweep (illum : ℚ) : ℤ := pyTrunc (360 * illum)

/-- One PIL drawing primitive issued by `draw_moon_ring`: either
`draw.ellipse(bbox, fill=..., outline=..., width=...)` or
`draw.arc(bbox, start=..., end=..., fill=..., width=...)`. -/
inductive DrawCmd where
  | ellipse (bbox : ℤ × ℤ × ℤ × ℤ) (fill : Option Color) (outline : Color)
      (width : ℕ)
  | arc (bbox : ℤ × ℤ × ℤ × ℤ) (start : ℤ) (stop : ℤ) (fill : Color)
      (width : ℕ)
deriving DecidableEq, Repr

/-- The bounding box a drawing primitive was issued with. -/
def DrawCmd.bbox : DrawCmd → ℤ × ℤ × ℤ × ℤ
  | .ellipse b _ _ _ => b
  | .arc b _ _ _ _ => b

/-- Embedding of `draw_moon_ring` (lines 77-94) as the ordered list of
drawing primitives it issues on the shared raster surface. -/
def draw_moon_ring (cx cy radius : ℤ) (date : PyDateTime) (ill : ℤ → ℚ)
    (lunarDayOfMonth : ℤ → ℕ → ℕ → ℕ) : List DrawCmd :=
  let iw := get_illum_waxing ill date
  let illum := iw.1
  let waxing := iw.2
  let bbox : ℤ × ℤ × ℤ × ℤ := (cx - radius, cy - radius, cx + radius, cy + radius)
  let start : ℤ := -90
  let swp := sweep illum
  let e : ℤ := if waxing then start + swp else start - swp
  let ellipse_color := get_lunar_color lunarDayOfMonth date
  [DrawCmd.ellipse bbox ellipse_color COLOR_GRAY_BORDER 2,
   DrawCmd.arc bbox 0 360 COLOR_YELLOW 4,
   DrawCmd.arc bbox start e COLOR_BLACK 4]

/-- Modelled from the spec: the standard phase-angle illumination fraction
`(1 + cos(phase_angle)) / 2` computed by skyfield's `fraction_illuminated`.
The cosine of the phase angle enters as a parameter in `[-1, 1]`. -/
def fraction_illuminated (cosPhase : ℚ) : ℚ := (1 + cosPhase) / 2

/-- Modelled from the spec: the error taxonomy of the ephemeris engine —
`EphemerisRangeError` for instants outside the loaded position model's span,
`InvalidInputError` for malformed dates. -/
inductive EphError where
  | ephemerisRange
  | invalidInput
deriving DecidableEq, Repr

/-- Version of `get_illum_waxing` with a fallible ephemeris query: Python exceptions
raised by the query abort the function, which the `Except` monad's bind
reproduces.  The two queries run in source order (lines 60-61). -/
def get_illum_waxing_exc (ill : ℤ → Except EphError ℚ) (date : PyDateTime) :
    Except EphError (ℚ × Bool) := do
  let illum ← ill (toInstant date)
  let illum_next ← ill (toInstant (addDays1 date))
  pure (illum, decide (illum_next > illum))

/-- Version of `draw_moon_ring` with a fallible ephemeris query: an exception in
`get_illum_waxing` (line 79) aborts the call before anything is drawn. -/
def draw_moon_ring_exc (cx cy radius : ℤ) (date : PyDateTime)
    (ill : ℤ → Except EphError ℚ) (lunarDayOfMonth : ℤ → ℕ → ℕ → ℕ) :
    Except EphError (List DrawCmd) := do
  let iw ← get_illum_waxing_exc ill date
  let illum := iw.1
  let waxing := iw.2
  let bbox : ℤ × ℤ × ℤ × ℤ := (cx - radius, cy - radius, cx + radius, cy + radius)
  let start : ℤ := -90
  let swp := sweep illum
  let e : ℤ := if waxing then start + swp else start - swp
  let ellipse_color := get_lunar_color lunarDayOfMonth date
  pure [DrawCmd.ellipse bbox ellipse_color COLOR_GRAY_BORDER 2,
    DrawCmd.arc bbox 0 360 COLOR_YELLOW 4,
    DrawCmd.arc bbox start e COLOR_BLACK 4]

/-- An externally visible action of `generate_calendar`: a drawing primitive
on the raster surface, or the final `image.save("calendar.png")`. -/
inductive Action where
  | draw (cmd : DrawCmd)
  | save (filename : String)
deriving DecidableEq, Repr

/-- One calendar cell of the grid walked by `generate_calendar`: the ring
center coordinates and the cell's local-midnight datetime. -/
structure Cell where
  cx : ℤ
  cy : ℤ
  dt : PyDateTime
deriving DecidableEq, Repr

/-- The per-cell loop body of `generate_calendar` (lines 181-236), restricted
to the lunar-phase core: each in-month cell triggers one `draw_moon_ring`
call with radius 30.  An exception in any cell aborts the whole loop. -/
def drawCells (ill : ℤ → Except EphError ℚ) (lunarDayOfMonth : ℤ → ℕ → ℕ → ℕ) :
    List Cell → Except EphError (List Action)
  | [] => Except.ok []
  | c :: rest => do
    let cmds ← draw_moon_ring_exc c.cx c.cy 30 c.dt ill lunarDayOfMonth
    let tail ← drawCells ill lunarDayOfMonth rest
    pure (cmds.map Action.draw ++ tail)

/-- Embedding of `generate_calendar` (lines 97-239) as its action trace: the
per-cell ring drawings followed by the single `image.save("calendar.png")`
(line 239).  There is no handler anywhere in the function, so any exception
from a cell propagates and the save is never reached. -/
def generate_calendar (ill : ℤ → Except EphError ℚ)
    (lunarDayOfMonth : ℤ → ℕ → ℕ → ℕ) (cells : List Cell) :
    Except EphError (List Action) := do
  let body ← drawCells ill lunarDayOfMonth cells
  pure (body ++ [Action.save "calendar.png"])

/-- C1 (counterexample): the sweep magnitude of `draw_moon_ring` is
`int(360 * illum)`, which truncates; at fraction `1/240` (inside `[0,1]`)
it yields `⌊1.5⌋ = 1` while rounding to the nearest integer yields `2`,
so the claimed `round(360 × fraction)` is false. -/
theorem sweep_not_round_cex :
    (0 ≤ (1/240 : ℚ) ∧ (1/240 : ℚ) ≤ 1) ∧
      sweep (1/240) ≠ round ((360 : ℚ) * (1/240)) := by
  constructor
  · constructor <;> norm_num
  · have h1 : sweep (1/240) = 1 := by
      norm_num [sweep, pyTrunc]
    have h2 : round ((360 : ℚ) * (1/240)) = 2 := by
      norm_num [round_eq]
    omega

/-- C1 (amended): for every nonnegative fraction, the sweep magnitude in
degrees computed by the ring renderer equals `⌊360 × fraction⌋`, the value
truncated (not rounded) to an integer, as Python's `int()` does. -/
theorem sweep_eq_floor (f : ℚ) (h : 0 ≤ f) : sweep f = ⌊360 * f⌋ := by
  rw [sweep, pyTrunc, if_pos (by positivity)]

/-- C1 witness: the amended statement at the counterexample point. -/
theorem sweep_eq_floor_witness : sweep (1/240) = ⌊(360 : ℚ) * (1/240)⌋ :=
  sweep_eq_floor (1/240) (by norm_num)

/-- C2: `get_illum_waxing` returns the illumination at the current-day
instant as its fraction, and waxing is true iff the next-day illumination
strictly exceeds it; on equality, waxing is false. -/
theorem get_illum_waxing_samples (ill : ℤ → ℚ) (d : PyDateTime) :
    (get_illum_waxing ill d).1 = ill (toInstant d) ∧
    ((get_illum_waxing ill d).2 = true ↔
      ill (toInstant (addDays1 d)) > ill (toInstant d)) ∧
    (ill (toInstant (addDays1 d)) = ill (toInstant d) →
      (get_illum_waxing ill d).2 = false) := by
  refine ⟨rfl, by simp [get_illum_waxing], fun h => ?_⟩
  simp [get_illum_waxing, h]

/-- C2 witness: applying the theorem at a constant illumination function and
the 2024-01-01 UTC midnight datetime, then discharging the equality branch
to conclude waxing = false there. -/
theorem get_illum_waxing_samples_witness :
    (get_illum_waxing (fun _ => (0 : ℚ)) (localMidnight ⟨2024, 1, 1⟩ 0)).2 = false :=
  (get_illum_waxing_samples (fun _ => (0 : ℚ))
    (localMidnight ⟨2024, 1, 1⟩ 0)).2.2 rfl

/-- C3: for every valid date and fixed UTC offset, the second instant
sampled by `get_illum_waxing` is local midnight of the following day under
the same offset, and falls exactly 24 civil hours (86400 s) after the
first sampled instant. -/
theorem midnight_sample_instants (d : Date) (h : validDate d) (off : ℤ) :
    addDays1 (localMidnight d off) = localMidnight (dateSucc d) off ∧
      toInstant (addDays1 (localMidnight d off)) =
        toInstant (localMidnight d off) + 86400 := by
  refine ⟨rfl, ?_⟩
  simp only [toInstant, addDays1, localMidnight, toOrdinal_dateSucc d h]
  ring

/-- C3 witness: the statement at the year-rollover date 2023-12-31 with
offset +7. -/
theorem midnight_sample_instants_witness :
    addDays1 (localMidnight ⟨2023, 12, 31⟩ 7) =
        localMidnight (dateSucc ⟨2023, 12, 31⟩) 7 ∧
      toInstant (addDays1 (localMidnight ⟨2023, 12, 31⟩ 7)) =
        toInstant (localMidnight ⟨2023, 12, 31⟩ 7) + 86400 :=
  midnight_sample_instants ⟨2023, 12, 31⟩ (by decide) 7

/-- C4: the lunar marker is the new-moon fill exactly when the lunar
day-of-month is 1, the full-moon fill exactly when it is 15, and absent
otherwise. -/
theorem get_lunar_color_spec (lunar : ℤ → ℕ → ℕ → ℕ) (d : PyDateTime) :
    (get_lunar_color lunar d = some COLOR_LUNAR_NEW_MOON ↔
      lunar d.date.year d.date.month d.date.day = 1) ∧
    (get_lunar_color lunar d = some COLOR_LUNAR_FULL_MOON ↔
      lunar d.date.year d.date.month d.date.day = 15) ∧
    (get_lunar_color lunar d = none ↔
      (lunar d.date.year d.date.month d.date.day ≠ 1 ∧
        lunar d.date.year d.date.month d.date.day ≠ 15)) := by
  by_cases h1 : lunar d.date.year d.date.month d.date.day = 1 <;>
    by_cases h15 : lunar d.date.year d.date.month d.date.day = 15 <;>
      simp [get_lunar_color, h1, h15, COLOR_LUNAR_NEW_MOON,
        COLOR_LUNAR_FULL_MOON]

/-- C5: the sweep arc emitted by `draw_moon_ring` (the last drawing
primitive) starts at the fixed angle −90°, and its end angle is start plus
the sweep magnitude when waxing, start minus the sweep magnitude when
waning. -/
theorem ring_sweep_geometry (cx cy r : ℤ) (d : PyDateTime) (ill : ℤ → ℚ)
    (lunar : ℤ → ℕ → ℕ → ℕ) :
    (draw_moon_ring cx cy r d ill lunar).get? 2 =
      some (DrawCmd.arc (cx - r, cy - r, cx + r, cy + r) (-90)
        (if (get_illum_waxing ill d).2 then
          -90 + sweep (get_illum_waxing ill d).1
        else
          -90 - sweep (get_illum_waxing ill d).1) COLOR_BLACK 4) := by
  simp [draw_moon_ring]

/-- C6: A zero fraction makes the sweep arc of `draw_moon_ring` degenerate
(end angle = start angle = −90°), and a full fraction makes it span a full
360° in whichever direction the waxing flag selects. -/
theorem ring_degenerate_sweeps (cx cy r : ℤ) (d : PyDateTime) (ill : ℤ → ℚ)
    (lunar : ℤ → ℕ → ℕ → ℕ) :
    ((get_illum_waxing ill d).1 = 0 →
      (draw_moon_ring cx cy r d ill lunar).get? 2 =
        some (DrawCmd.arc (cx - r, cy - r, cx + r, cy + r) (-90) (-90)
          COLOR_BLACK 4)) ∧
    ((get_illum_waxing ill d).1 = 1 →
      ∃ e, (draw_moon_ring cx cy r d ill lunar).get? 2 =
        some (DrawCmd.arc (cx - r, cy - r, cx + r, cy + r) (-90) e
          COLOR_BLACK 4) ∧
        (e - (-90) = 360 ∨ (-90) - e = 360)) := by
  constructor
  · intro h0
    have hs : sweep (get_illum_waxing ill d).1 = 0 := by
      rw [h0]
      norm_num [sweep, pyTrunc]
    simp [draw_moon_ring, hs]
  · intro h1
    have hs : sweep (get_illum_waxing ill d).1 = 360 := by
      rw [h1]
      norm_num [sweep, pyTrunc]
    refine ⟨if (get_illum_waxing ill d).2 then 270 else -450, ?_, ?_⟩
    · cases hw : (get_illum_waxing ill d).2 <;>
        simp [draw_moon_ring, hs, hw]
    · cases hw : (get_illum_waxing ill d).2 <;> simp [hw]

/-- C6 witness: the zero-fraction branch at a constant dark illumination and
the full-fraction branch at a constant full illumination. -/
theorem ring_degenerate_sweeps_witness :
    (draw_moon_ring 0 0 30 (localMidnight ⟨2024, 1, 1⟩ 0) (fun _ => (0 : ℚ))
        (fun _ _ _ => 7)).get? 2 =
      some (DrawCmd.arc ((0:ℤ) - 30, (0:ℤ) - 30, (0:ℤ) + 30, (0:ℤ) + 30)
        (-90) (-90) COLOR_BLACK 4) ∧
    ∃ e, (draw_moon_ring 0 0 30 (localMidnight ⟨2024, 1, 1⟩ 0)
        (fun _ => (1 : ℚ)) (fun _ _ _ => 7)).get? 2 =
      some (DrawCmd.arc ((0:ℤ) - 30, (0:ℤ) - 30, (0:ℤ) + 30, (0:ℤ) + 30)
        (-90) e COLOR_BLACK 4) ∧
      (e - (-90) = 360 ∨ (-90) - e = 360) :=
  ⟨(ring_degenerate_sweeps 0 0 30 (localMidnight ⟨2024, 1, 1⟩ 0)
      (fun _ => (0 : ℚ)) (fun _ _ _ => 7)).1 rfl,
    (ring_degenerate_sweeps 0 0 30 (localMidnight ⟨2024, 1, 1⟩ 0)
      (fun _ => (1 : ℚ)) (fun _ _ _ => 7)).2 rfl⟩

/-- C7: when the ephemeris query computes the standard phase-angle
illumination fraction `(1 + cos θ) / 2` with a cosine in `[-1, 1]`, the
fraction returned by `get_illum_waxing` lies in `[0, 1]`. -/
theorem fraction_in_unit_interval (c : ℤ → ℚ)
    (hc : ∀ t, -1 ≤ c t ∧ c t ≤ 1) (d : PyDateTime) :
    0 ≤ (get_illum_waxing (fun t => fraction_illuminated (c t)) d).1 ∧
      (get_illum_waxing (fun t => fraction_illuminated (c t)) d).1 ≤ 1 := by
  have h := hc (toInstant d)
  simp only [get_illum_waxing, fraction_illuminated]
  constructor <;> [linarith [h.1]; linarith [h.2]]

/-- C7 witness: the bound at a constant quarter-phase cosine and the
2024-01-01 UTC midnight datetime. -/
theorem fraction_in_unit_interval_witness :
    0 ≤ (get_illum_waxing (fun t => fraction_illuminated ((fun _ => (0:ℚ)) t))
        (localMidnight ⟨2024, 1, 1⟩ 0)).1 ∧
      (get_illum_waxing (fun t => fraction_illuminated ((fun _ => (0:ℚ)) t))
        (localMidnight ⟨2024, 1, 1⟩ 0)).1 ≤ 1 :=
  fraction_in_unit_interval (fun _ => 0)
    (fun _ => ⟨by norm_num, by norm_num⟩) (localMidnight ⟨2024, 1, 1⟩ 0)

/-- C8: `draw_moon_ring` issues the full-circle outline arc before the
directional sweep arc, and every primitive it issues shares the bounding
box `center ± radius`. -/
theorem ring_layer_order (cx cy r : ℤ) (d : PyDateTime) (ill : ℤ → ℚ)
    (lunar : ℤ → ℕ → ℕ → ℕ) :
    ∃ i j e, i < j ∧
      (draw_moon_ring cx cy r d ill lunar).get? i =
        some (DrawCmd.arc (cx - r, cy - r, cx + r, cy + r) 0 360
          COLOR_YELLOW 4) ∧
      (draw_moon_ring cx cy r d ill lunar).get? j =
        some (DrawCmd.arc (cx - r, cy - r, cx + r, cy + r) (-90) e
          COLOR_BLACK 4) ∧
      ∀ cmd ∈ draw_moon_ring cx cy r d ill lunar,
        cmd.bbox = (cx - r, cy - r, cx + r, cy + r) := by
  refine ⟨1, 2,
    if (get_illum_waxing ill d).2 then -90 + sweep (get_illum_waxing ill d).1
    else -90 - sweep (get_illum_waxing ill d).1,
    by norm_num, by simp [draw_moon_ring], by simp [draw_moon_ring], ?_⟩
  intro cmd hcmd
  simp only [draw_moon_ring, List.mem_cons, List.not_mem_nil, or_false]
    at hcmd
  rcases hcmd with rfl | rfl | rfl <;> rfl

/-- A raised exception short-circuits a bind, by computation. -/
theorem except_error_bind {E A B : Type} (e : E) (f : A → Except E B) :
    (Except.error e >>= f : Except E B) = Except.error e := rfl

/-- A successful result feeds its value to the continuation, by
computation. -/
theorem except_ok_bind {E A B : Type} (a : A) (f : A → Except E B) :
    (Except.ok a >>= f : Except E B) = f a := rfl

/-- If the ephemeris sampling for some cell raises, the whole cell loop of
`generate_calendar` stops with that exception: no per-cell recovery. -/
theorem drawCells_error (ill : ℤ → Except EphError ℚ)
    (lunar : ℤ → ℕ → ℕ → ℕ) (cells : List Cell) (c : Cell) (e : EphError)
    (hc : c ∈ cells) (he : get_illum_waxing_exc ill c.dt = Except.error e) :
    ∃ e2, drawCells ill lunar cells = Except.error e2 := by
  induction cells with
  | nil => simp at hc
  | cons hd tl ih =>
    rcases List.mem_cons.mp hc with rfl | htl
    · refine ⟨e, ?_⟩
      simp [drawCells, draw_moon_ring_exc, he, except_error_bind]
    · rcases h2 : draw_moon_ring_exc hd.cx hd.cy 30 hd.dt ill lunar with e2 | v
      · exact ⟨e2, by simp [drawCells, h2, except_error_bind]⟩
      · obtain ⟨e2, he2⟩ := ih htl
        exact ⟨e2, by simp [drawCells, h2, he2, except_ok_bind, except_error_bind]⟩

/-- C9: if the ephemeris query for any calendar cell raises, the error
propagates uncaught out of the whole `generate_calendar` run, and in
particular no action trace — hence no `image.save` — is produced. -/
theorem generate_calendar_aborts (ill : ℤ → Except EphError ℚ)
    (lunar : ℤ → ℕ → ℕ → ℕ) (cells : List Cell) (c : Cell) (e : EphError)
    (hc : c ∈ cells) (he : get_illum_waxing_exc ill c.dt = Except.error e) :
    ∃ e2, generate_calendar ill lunar cells = Except.error e2 ∧
      ∀ acts : List Action, generate_calendar ill lunar cells ≠ Except.ok acts := by
  obtain ⟨e2, h⟩ := drawCells_error ill lunar cells c e hc he
  refine ⟨e2, by simp [generate_calendar, h, except_error_bind], ?_⟩
  intro acts hacts
  rw [generate_calendar] at hacts
  simp [h, except_error_bind] at hacts

/-- C9 witness: a one-cell calendar whose ephemeris query reports the
instant outside the position model's span. -/
theorem generate_calendar_aborts_witness :
    ∃ e2, generate_calendar (fun _ => Except.error EphError.ephemerisRange)
        (fun _ _ _ => 7) [⟨0, 0, localMidnight ⟨2024, 1, 1⟩ 0⟩] =
        Except.error e2 ∧
      ∀ acts : List Action,
        generate_calendar (fun _ => Except.error EphError.ephemerisRange)
          (fun _ _ _ => 7) [⟨0, 0, localMidnight ⟨2024, 1, 1⟩ 0⟩] ≠
          Except.ok acts :=
  generate_calendar_aborts (fun _ => Except.error EphError.ephemerisRange)
    (fun _ _ _ => 7) [⟨0, 0, localMidnight ⟨2024, 1, 1⟩ 0⟩]
    ⟨0, 0, localMidnight ⟨2024, 1, 1⟩ 0⟩ EphError.ephemerisRange
    (List.mem_singleton.mpr rfl) rfl

/-- C10: the lunar marker depends only on the civil (year, month, day)
triple — time-of-day and UTC offset are never consulted. -/
theorem lunar_color_civil_only (lunar : ℤ → ℕ → ℕ → ℕ)
    (d1 d2 : PyDateTime) (hy : d1.date.year = d2.date.year)
    (hm : d1.date.month = d2.date.month) (hd : d1.date.day = d2.date.day) :
    get_lunar_color lunar d1 = get_lunar_color lunar d2 := by
  simp only [get_lunar_color, hy, hm, hd]

/-- C10 witness: two datetimes for civil date 2024-05-01, one at UTC
midnight, one at 01:00 with offset +7, yield the same marker. -/
theorem lunar_color_civil_only_witness :
    get_lunar_color (fun _ _ d => d) ⟨⟨2024, 5, 1⟩, 0, 0⟩ =
      get_lunar_color (fun _ _ d => d) ⟨⟨2024, 5, 1⟩, 3600, 7⟩ :=
  lunar_color_civil_only (fun _ _ d => d) ⟨⟨2024, 5, 1⟩, 0, 0⟩
    ⟨⟨2024, 5, 1⟩, 3600, 7⟩ rfl rfl rfl

end MoonCalendar
